import Mathlib

/-!
Shallow embedding of the core of `src/app.py` (the DayyOtak anime proxy):
the TTL JSON cache (`get_from_cache` / `save_to_cache`), the sliding-window
rate limiter (`_rate_limit_wait`), the resilient fetch pipeline
(`fetch_api`), and the binary image proxy cache (`proxy_image`,
`image_cache_stats`).

Modelling conventions:
  - wall-clock instants and durations in seconds are rationals (`ℚ`),
    standing in for Python floats / `datetime` values;
  - Python dicts are association lists with first-match lookup and
    overwrite-on-assignment;
  - the HTTP environment is an oracle: `fetch_api` receives a function
    from attempt index to the outcome `requests.get` would produce, and
    `proxy_image` receives a single outcome (it performs no retry);
  - side effects (upstream calls, `time.sleep`, rate-limiter entry) are
    returned as an explicit effect trace;
  - `requests.Response.raise_for_status` raises `HTTPError` exactly for
    status codes `s` with `400 ≤ s < 600` (per the requests library);
  - `time.sleep(d)` is modelled as advancing the clock by exactly `d`.
-/

namespace DayyOtak

/-- JSON values, the data shuttled between the upstream API, the cache and
route handlers. -/
inductive Json where
  | null : Json
  | str : String → Json
  | num : ℚ → Json
  | arr : List Json → Json
  | obj : List (String × Json) → Json

/-- Python `str` applied to an optional exception message: `str(None)` is
the four-character string `"None"`; otherwise the carried message. -/
def pyStr : Option String → String
  | none => "None"
  | some m => m

/-- The data-shaped error payload built at the end of `fetch_api`
(src/app.py line 118). -/
def errorPayload (msg : String) : Json :=
  Json.obj [("status", Json.str "error"), ("message", Json.str msg)]

/-- First-match lookup in an association list, the model of `d[k]` /
`k in d` on a Python dict. -/
def lookupDict {α : Type} : List (String × α) → String → Option α
  | [], _ => none
  | (k, v) :: rest, key => if k = key then some v else lookupDict rest key

/-- Removal of a key's bindings from an association list. -/
def removeKey {α : Type} : List (String × α) → String → List (String × α)
  | [], _ => []
  | p :: rest, key =>
      if p.1 = key then removeKey rest key else p :: removeKey rest key

/-- Overwriting insertion, the model of `d[k] = v` on a Python dict. -/
def setDict {α : Type} (d : List (String × α)) (key : String) (v : α) :
    List (String × α) :=
  (key, v) :: removeKey d key

/-- One stored value of the `CACHE` dict: the Python triple
`(cached_time, cache_type, data)` (src/app.py line 71). -/
structure CacheEntry where
  cachedTime : ℚ
  cacheType : String
  data : Json

/-- The module-level `CACHE` dict. -/
abbrev Cache := List (String × CacheEntry)

/-- The `CACHE_DURATION` table of src/app.py lines 26-38, in seconds. -/
def CACHE_DURATION : List (String × ℚ) :=
  [("home", 600), ("ongoing", 600), ("completed", 900), ("schedule", 3600),
   ("unlimited", 3600), ("genre", 3600), ("anime", 1800), ("episode", 3600),
   ("search", 300), ("server", 120), ("batch", 1800)]

/-- `CACHE_DURATION.get(cache_type, 600)` (src/app.py line 65). -/
def cacheDurationOf (cache_type : String) : ℚ :=
  (lookupDict CACHE_DURATION cache_type).getD 600

/-- `get_from_cache` (src/app.py lines 62-68): return the stored data only
when the entry is strictly younger than its class duration. -/
def get_from_cache (cache : Cache) (cache_key : String) (now : ℚ) :
    Option Json :=
  match lookupDict cache cache_key with
  | some e =>
      if now - e.cachedTime < cacheDurationOf e.cacheType then some e.data
      else none
  | none => none

/-- `save_to_cache` (src/app.py lines 70-71): unconditional overwrite with
the current instant. -/
def save_to_cache (cache : Cache) (cache_key : String) (data : Json)
    (cache_type : String) (now : ℚ) : Cache :=
  setDict cache cache_key ⟨now, cache_type, data⟩

/-- What one `requests.get` inside the `fetch_api` retry loop produced:
either a raised exception (timeout, connection error, ...) carrying its
`str` form, or a response with a status code and a body that either parses
as JSON or does not. -/
inductive AttemptOutcome where
  | exn : String → AttemptOutcome
  | resp : Nat → Option Json → AttemptOutcome

/-- Whether `response.status_code in (403, 429)` (src/app.py line 97). -/
def isRateLimitStatus (s : Nat) : Bool :=
  decide (s = 403 ∨ s = 429)

/-- Whether `response.raise_for_status()` raises: the requests library
raises `HTTPError` exactly for 4xx and 5xx status codes. -/
def raisesForStatus (s : Nat) : Bool :=
  decide (400 ≤ s ∧ s < 600)

/-- Stand-in for `str(requests.exceptions.HTTPError(...))` raised by
`raise_for_status` on status `s`; the claims never depend on the text. -/
def httpErrorMsg (s : Nat) : String :=
  "HTTPError " ++ toString s

/-- Stand-in for `str(json.JSONDecodeError(...))` when the body fails to
parse; the claims never depend on the text. -/
def jsonDecodeErrorMsg : String := "JSONDecodeError"

/-- Observable side effects of the fetch pipeline. -/
inductive Eff where
  | rateLimitWait : Eff
  | httpCall : String → Eff
  | sleep : ℚ → Eff

/-- Result of the 3-attempt retry loop: the parsed data on success, the
final `last_error` variable, and the emitted effect trace. -/
structure LoopResult where
  result : Option Json
  lastError : Option String
  effects : List Eff

/-- The `for attempt in range(3)` retry loop of `fetch_api`
(src/app.py lines 88-111), over the list of remaining attempt indices.
On 403/429: sleep `(attempt+1)*6` and continue (without touching
`last_error`). On any caught exception (transport error, `raise_for_status`
on a 4xx/5xx, JSON decode failure): record it in `last_error` and sleep a
flat 3 seconds unless this was the final attempt. On success return the
parsed body at once. -/
def fetchLoop (oracle : Nat → AttemptOutcome) (endpoint : String) :
    List Nat → Option String → LoopResult
  | [], lastError => ⟨none, lastError, []⟩
  | attempt :: rest, lastError =>
    match oracle attempt with
    | .exn msg =>
        let tail := fetchLoop oracle endpoint rest (some msg)
        ⟨tail.result, tail.lastError,
          Eff.httpCall endpoint ::
            ((if attempt < 2 then [Eff.sleep 3] else []) ++ tail.effects)⟩
    | .resp s body =>
        if isRateLimitStatus s then
          let tail := fetchLoop oracle endpoint rest lastError
          ⟨tail.result, tail.lastError,
            Eff.httpCall endpoint ::
              Eff.sleep (((attempt : ℚ) + 1) * 6) :: tail.effects⟩
        else if raisesForStatus s then
          let tail := fetchLoop oracle endpoint rest (some (httpErrorMsg s))
          ⟨tail.result, tail.lastError,
            Eff.httpCall endpoint ::
              ((if attempt < 2 then [Eff.sleep 3] else []) ++ tail.effects)⟩
        else
          match body with
          | some d => ⟨some d, lastError, [Eff.httpCall endpoint]⟩
          | none =>
              let tail :=
                fetchLoop oracle endpoint rest (some jsonDecodeErrorMsg)
              ⟨tail.result, tail.lastError,
                Eff.httpCall endpoint ::
                  ((if attempt < 2 then [Eff.sleep 3] else []) ++
                    tail.effects)⟩

/-- Cache key computation `f"{cache_type}_{endpoint}"`
(src/app.py line 75). -/
def cacheKey (cache_type endpoint : String) : String :=
  cache_type ++ "_" ++ endpoint

/-- `fetch_api` (src/app.py lines 73-118): fresh-cache short circuit, else
rate-limiter entry, the 3-attempt loop, cache write on success, stale-cache
fallback, and the data-shaped error payload. Returns the JSON handed to the
caller, the updated `CACHE`, and the effect trace. -/
def fetch_api (oracle : Nat → AttemptOutcome) (cache : Cache) (now : ℚ)
    (endpoint : String) (cache_type : String) : Json × Cache × List Eff :=
  let key := cacheKey cache_type endpoint
  match get_from_cache cache key now with
  | some d => (d, cache, [])
  | none =>
    let lr := fetchLoop oracle endpoint [0, 1, 2] none
    match lr.result with
    | some d =>
        (d, save_to_cache cache key d cache_type now,
          Eff.rateLimitWait :: lr.effects)
    | none =>
        match lookupDict cache key with
        | some e => (e.data, cache, Eff.rateLimitWait :: lr.effects)
        | none =>
            (errorPayload (pyStr lr.lastError), cache,
              Eff.rateLimitWait :: lr.effects)

/-- The backoff sleeps of an effect trace, in order. -/
def sleepTimes (effs : List Eff) : List ℚ :=
  effs.filterMap (fun e =>
    match e with
    | .sleep q => some q
    | _ => none)

/-- Number of upstream HTTP calls in an effect trace. -/
def httpCallCount (effs : List Eff) : Nat :=
  effs.countP (fun e =>
    match e with
    | .httpCall _ => true
    | _ => false)

/-- `MAX_RPM` (src/app.py line 44). -/
def MAX_RPM : Nat := 55

/-- The prune loop of `_rate_limit_wait` (src/app.py lines 50-51):
`while _req_times and now - _req_times[0] > 60: _req_times.pop(0)`. -/
def pruneWindow (times : List ℚ) (now : ℚ) : List ℚ :=
  times.dropWhile (fun t => decide (now - t > 60))

/-- `_rate_limit_wait` (src/app.py lines 46-56) as a state transformer on
the `_req_times` list: prune, possibly sleep `max(61 - (now - oldest), 0)`,
then append the post-sleep clock reading. Returns the new list and the
seconds slept (0 when no sleep happened). The sleep is modelled as exact,
so the appended `time.time()` reading is `now + slept`. -/
def rate_limit_wait (times : List ℚ) (now : ℚ) : List ℚ × ℚ :=
  let pruned := pruneWindow times now
  if MAX_RPM ≤ pruned.length then
    let wait : ℚ := 61 - (now - pruned.headD 0)
    let slept := max wait 0
    (pruned ++ [now + slept], slept)
  else
    (pruned ++ [now], 0)

/-- A run of consecutive `_rate_limit_wait` calls at the given sequence of
call instants: final `_req_times` list plus per-call slept seconds. -/
def acquireRun : List ℚ → List ℚ → List ℚ × List ℚ
  | times, [] => (times, [])
  | times, now :: rest =>
      let step := rate_limit_wait times now
      let tail := acquireRun step.1 rest
      (tail.1, step.2 :: tail.2)

/-- One stored value of the `IMAGE_CACHE` dict (src/app.py lines 133-138):
content bytes (modelled as a list of byte values), mimetype, write instant
and hit counter. -/
structure ImageEntry where
  content : List Nat
  mimetype : String
  cachedAt : ℚ
  hits : Nat

/-- The module-level `IMAGE_CACHE` dict. -/
abbrev ImageCache := List (String × ImageEntry)

/-- `IMAGE_CACHE_DURATION = timedelta(hours=6)` (src/app.py line 60),
in seconds. -/
def IMAGE_CACHE_DURATION : ℚ := 21600

/-- `is_image_cached` (src/app.py lines 123-129). -/
def is_image_cached (cache : ImageCache) (url : String) (now : ℚ) : Bool :=
  match lookupDict cache url with
  | some e => decide (now - e.cachedAt < IMAGE_CACHE_DURATION)
  | none => false

/-- `cache_image` (src/app.py lines 131-138): store with `hits = 0`. -/
def cache_image (cache : ImageCache) (url : String) (image_content : List Nat)
    (mimetype : String) (now : ℚ) : ImageCache :=
  setDict cache url ⟨image_content, mimetype, now, 0⟩

/-- What the single `requests.get(image_url, timeout=10)` of `proxy_image`
produced: a raised `Timeout`, another raised `RequestException`, a
non-requests exception raised inside the handler body, or a response with
status code, content bytes and optional `Content-Type` header. -/
inductive ImgOutcome where
  | timeout : ImgOutcome
  | reqError : String → ImgOutcome
  | internalError : String → ImgOutcome
  | ok : Nat → List Nat → Option String → ImgOutcome

/-- Responses of the `proxy_image` handler: a binary image response with
its mimetype and `X-Cache-Status` header value, or a JSON error body with
an explicit HTTP status. -/
inductive ProxyResponse where
  | image : List Nat → String → String → ProxyResponse
  | jsonError : String → Nat → ProxyResponse

/-- The HTTP status of a `proxy_image` response (Flask `Response` defaults
to 200 on the image branches). -/
def proxyStatus : ProxyResponse → Nat
  | .image _ _ _ => 200
  | .jsonError _ s => s

/-- The `X-Cache-Status` header value carried by an image response. -/
def cacheStatusOf : ProxyResponse → Option String
  | .image _ _ st => some st
  | .jsonError _ _ => none

/-- Result of one `proxy_image` call: the response, the updated
`IMAGE_CACHE`, and the number of upstream image fetches performed. -/
structure ProxyResult where
  response : ProxyResponse
  cache : ImageCache
  fetchCount : Nat

/-- The cache-miss half of `proxy_image` (src/app.py lines 177-206): one
fetch, `raise_for_status`, store-on-success with `hits = 0` and default
mimetype `image/jpeg`, and the three exception handlers mapping
`Timeout` to 504 and `RequestException` / any other exception to 500.
A failed fetch leaves the cache untouched. -/
def proxyFetchMiss (cache : ImageCache) (url : String) (now : ℚ)
    (outcome : ImgOutcome) : ProxyResult :=
  match outcome with
  | .timeout => ⟨.jsonError "Request timeout" 504, cache, 1⟩
  | .reqError m =>
      ⟨.jsonError ("Failed to fetch image: " ++ m) 500, cache, 1⟩
  | .internalError m =>
      ⟨.jsonError ("Internal error: " ++ m) 500, cache, 1⟩
  | .ok s content contentType =>
      if raisesForStatus s then
        ⟨.jsonError ("Failed to fetch image: " ++ httpErrorMsg s) 500,
          cache, 1⟩
      else
        let mimetype := contentType.getD "image/jpeg"
        ⟨.image content mimetype "MISS",
          cache_image cache url content mimetype now, 1⟩

/-- `proxy_image` (src/app.py lines 142-206), GET path: 400 when the `url`
query parameter is missing; on a fresh cached entry increment `hits` and
serve it with `X-Cache-Status: HIT`; otherwise fetch once via
`proxyFetchMiss`. -/
def proxy_image (cache : ImageCache) (urlParam : Option String) (now : ℚ)
    (outcome : ImgOutcome) : ProxyResult :=
  match urlParam with
  | none => ⟨.jsonError "URL parameter required" 400, cache, 0⟩
  | some url =>
      match lookupDict cache url with
      | some e =>
          if now - e.cachedAt < IMAGE_CACHE_DURATION then
            ⟨.image e.content e.mimetype "HIT",
              setDict cache url ⟨e.content, e.mimetype, e.cachedAt, e.hits + 1⟩,
              0⟩
          else proxyFetchMiss cache url now outcome
      | none => proxyFetchMiss cache url now outcome

/-- `sum(c.get('hits', 0) for c in IMAGE_CACHE.values())`
(src/app.py line 212). -/
def imageCacheTotalHits (cache : ImageCache) : Nat :=
  (cache.map (fun p => p.2.hits)).sum

/-- `sum(len(c.get('content', b'')) for c in IMAGE_CACHE.values())`
(src/app.py line 213). -/
def imageCacheTotalSize (cache : ImageCache) : Nat :=
  (cache.map (fun p => p.2.content.length)).sum

/-- Python `round(q, 2)`: two-decimal rounding. Python rounds half to
even; the model rounds half away from zero via Mathlib `round`, which
agrees with Python everywhere off the exact half-cent ties (no claim
depends on a tie). -/
def round2 (q : ℚ) : ℚ :=
  ((round (q * 100) : ℤ) : ℚ) / 100

/-- The `data` object of the `image_cache_stats` route response
(src/app.py lines 210-222). -/
structure ImageCacheStats where
  totalCachedImages : Nat
  totalSizeMb : ℚ
  totalHits : Nat
  cacheDurationHours : Nat

/-- `image_cache_stats` (src/app.py lines 210-222): entry count, total
content size converted to mebibytes and rounded to 2 decimals, total hit
count, and the fixed 6-hour figure. -/
def image_cache_stats (cache : ImageCache) : ImageCacheStats :=
  ⟨cache.length,
    round2 ((imageCacheTotalSize cache : ℚ) / (1024 * 1024)),
    imageCacheTotalHits cache,
    6⟩

/-- The `str` form of the exception a retry-loop attempt records into
`last_error`, if any: a 403/429 response takes the `continue` branch
before `raise_for_status` and records nothing; an exception records its
message; a 4xx/5xx response records the `HTTPError`; a response whose body
fails to parse records the decode error; a parsed body is a success. -/
def attemptErrMsg : AttemptOutcome → Option String
  | .exn msg => some msg
  | .resp s body =>
      if isRateLimitStatus s then none
      else if raisesForStatus s then some (httpErrorMsg s)
      else
        match body with
        | some _ => none
        | none => some jsonDecodeErrorMsg

/-- Left-biased choice on optional error messages: the later recorded
error shadows the earlier one. -/
def orOpt : Option String → Option String → Option String
  | some m, _ => some m
  | none, b => b

/-- Whether a retry-loop attempt succeeds (2xx-or-other non-raising status
and a body that parses as JSON). -/
def isSuccessOutcome : AttemptOutcome → Bool
  | .exn _ => false
  | .resp s body =>
      !isRateLimitStatus s && !raisesForStatus s && body.isSome

/-- Whether an attempt takes the 403/429 `continue` branch. -/
def isRateLimitedOutcome : AttemptOutcome → Bool
  | .exn _ => false
  | .resp s _ => isRateLimitStatus s

/-- The value of `last_error` after all three attempts of the retry loop
have failed: the most recent recorded exception, or `none` when every
attempt took the 403/429 branch. -/
def lastErrorOf (oracle : Nat → AttemptOutcome) : Option String :=
  orOpt (attemptErrMsg (oracle 2))
    (orOpt (attemptErrMsg (oracle 1)) (attemptErrMsg (oracle 0)))

/-- Modelled from the claim's (amended) wording, for the refinement check
of the backoff policy: per remaining attempt index, a 403/429 response
sleeps `(i+1)*6` seconds and the loop continues; a success stops the loop
with no further sleep; any other failure sleeps a flat 3 seconds unless it
happened on the final attempt (index 2). -/
def claimedBackoff (oracle : Nat → AttemptOutcome) : List Nat → List ℚ
  | [] => []
  | i :: rest =>
      if isRateLimitedOutcome (oracle i) then
        ((i : ℚ) + 1) * 6 :: claimedBackoff oracle rest
      else if isSuccessOutcome (oracle i) then []
      else (if i < 2 then [(3 : ℚ)] else []) ++ claimedBackoff oracle rest

/-- Invariant of the `_req_times` list between rate-limiter calls: it
holds at most 55 timestamps, or exactly 56 where some entry (the one
appended after a wait) is at least 61 seconds ahead of the oldest, so the
next prune is guaranteed to evict the oldest. -/
def RateInv (times : List ℚ) : Prop :=
  times.length ≤ 55 ∨
    (times.length = 56 ∧ ∃ t ∈ times, times.headD 0 + 61 ≤ t)

/-! Helper lemmas about the dict model. -/

theorem lookupDict_setDict_self {α : Type} (d : List (String × α))
    (key : String) (v : α) : lookupDict (setDict d key v) key = some v := by
  simp [setDict, lookupDict]

theorem lookupDict_removeKey {α : Type} (d : List (String × α))
    (key key' : String) (hne : key' ≠ key) :
    lookupDict (removeKey d key) key' = lookupDict d key' := by
  induction d with
  | nil => rfl
  | cons p rest ih =>
      by_cases hp : p.1 = key
      · have h2 : ¬key = key' := fun h => hne h.symm
        simp [removeKey, lookupDict, hp, h2, ih]
      · by_cases hk : p.1 = key'
        · simp [removeKey, lookupDict, hp, hk, hne]
        · simp [removeKey, lookupDict, hp, hk, ih]

theorem lookupDict_setDict_ne {α : Type} (d : List (String × α))
    (key key' : String) (v : α) (hne : key' ≠ key) :
    lookupDict (setDict d key v) key' = lookupDict d key' := by
  have h1 : ¬key = key' := fun h => hne h.symm
  simp [setDict, lookupDict, h1, lookupDict_removeKey d key key' hne]

theorem removeKey_eq_self_of_lookup_none {α : Type} (d : List (String × α))
    (key : String) (h : lookupDict d key = none) :
    removeKey d key = d := by
  induction d with
  | nil => rfl
  | cons p rest ih =>
      by_cases hp : p.1 = key
      · simp [lookupDict, hp] at h
      · simp only [lookupDict, if_neg hp] at h
        simp [removeKey, hp, ih h]

theorem get_from_cache_of_lookup_none (cache : Cache) (key : String)
    (now : ℚ) (h : lookupDict cache key = none) :
    get_from_cache cache key now = none := by
  simp [get_from_cache, h]

theorem get_from_cache_some (cache : Cache) (key : String) (now : ℚ)
    (d : Json) (h : get_from_cache cache key now = some d) :
    ∃ e, lookupDict cache key = some e ∧ e.data = d ∧
      now - e.cachedTime < cacheDurationOf e.cacheType := by
  cases hl : lookupDict cache key with
  | none =>
      rw [get_from_cache_of_lookup_none cache key now hl] at h
      exact absurd h (by simp)
  | some e =>
      simp only [get_from_cache, hl] at h
      split_ifs at h with hf
      exact ⟨e, rfl, Option.some.inj h, hf⟩

/-- C5: for every key and class, `get_from_cache` returns the stored value
exactly when `now - cachedAt < duration(class)` (strict inequality), and
reports absent otherwise while leaving the stale entry present in the
store; hence an entry written at `t0` is fresh at `t0 + duration - 1` and
treated as absent at `t0 + duration + 1`. -/
theorem C5_ttl_get_freshness (cache : Cache) (key : String) (now : ℚ)
    (e : CacheEntry) (hlook : lookupDict cache key = some e) :
    (get_from_cache cache key now = some e.data ↔
      now - e.cachedTime < cacheDurationOf e.cacheType) ∧
    (cacheDurationOf e.cacheType ≤ now - e.cachedTime →
      get_from_cache cache key now = none ∧ lookupDict cache key = some e) ∧
    get_from_cache cache key
      (e.cachedTime + cacheDurationOf e.cacheType - 1) = some e.data ∧
    get_from_cache cache key
      (e.cachedTime + cacheDurationOf e.cacheType + 1) = none := by
  have hval : ∀ t : ℚ, t - e.cachedTime < cacheDurationOf e.cacheType →
      get_from_cache cache key t = some e.data := by
    intro t ht
    simp [get_from_cache, hlook, ht]
  have hnone : ∀ t : ℚ, ¬t - e.cachedTime < cacheDurationOf e.cacheType →
      get_from_cache cache key t = none := by
    intro t ht
    simp [get_from_cache, hlook, ht]
  refine ⟨⟨fun h => ?_, hval now⟩, fun h => ⟨hnone now (not_lt.mpr h), hlook⟩,
    hval _ (by linarith), hnone _ (by linarith)⟩
  by_contra hf
  rw [hnone now hf] at h
  exact Option.noConfusion h

/-- Witness for C5 at a concrete store: an entry of class `home`
(duration 600 s) written at instant 0 is returned fresh at instant 599. -/
theorem C5_witness :
    get_from_cache [("home_/anime/home", ⟨0, "home", Json.null⟩)]
      "home_/anime/home" 599 = some Json.null := by
  have h := C5_ttl_get_freshness
    [("home_/anime/home", ⟨0, "home", Json.null⟩)] "home_/anime/home" 599
    ⟨0, "home", Json.null⟩ (by simp [lookupDict])
  exact h.1.mpr (by norm_num [cacheDurationOf, CACHE_DURATION, lookupDict])

/-- C8: the cache key is `f"{cacheClass}_{endpointPath}"` with the endpoint
path embedded verbatim, so distinct endpoint paths under the same class
derive distinct keys; concretely, fetching `/anime/ongoing-anime?page=1`
and `?page=2` under class `ongoing` leaves two distinct cache entries. -/
theorem C8_cache_key_distinct :
    (∀ ct e1 e2 : String, e1 ≠ e2 → cacheKey ct e1 ≠ cacheKey ct e2) ∧
    (lookupDict
        (fetch_api (fun _ => .resp 200 (some (Json.str "p2")))
          (fetch_api (fun _ => .resp 200 (some (Json.str "p1"))) [] 0
            "/anime/ongoing-anime?page=1" "ongoing").2.1 0
          "/anime/ongoing-anime?page=2" "ongoing").2.1
        (cacheKey "ongoing" "/anime/ongoing-anime?page=1") =
      some ⟨0, "ongoing", Json.str "p1"⟩ ∧
     lookupDict
        (fetch_api (fun _ => .resp 200 (some (Json.str "p2")))
          (fetch_api (fun _ => .resp 200 (some (Json.str "p1"))) [] 0
            "/anime/ongoing-anime?page=1" "ongoing").2.1 0
          "/anime/ongoing-anime?page=2" "ongoing").2.1
        (cacheKey "ongoing" "/anime/ongoing-anime?page=2") =
      some ⟨0, "ongoing", Json.str "p2"⟩) := by
  constructor
  · intro ct e1 e2 hne h
    apply hne
    have hd := congrArg String.data h
    simp only [cacheKey, String.data_append] at hd
    have h1 := List.append_cancel_left hd
    cases e1
    cases e2
    simp only at h1
    exact congrArg String.mk h1
  · constructor <;> rfl

/-- Witness for C8: the two pagination endpoints of the spec's scenario
derive distinct cache keys. -/
theorem C8_witness :
    cacheKey "ongoing" "/anime/ongoing-anime?page=1" ≠
      cacheKey "ongoing" "/anime/ongoing-anime?page=2" :=
  C8_cache_key_distinct.1 "ongoing" "/anime/ongoing-anime?page=1"
    "/anime/ongoing-anime?page=2" (by decide)

/-! Helper lemmas about the retry loop. -/

theorem orOpt_none_right (a : Option String) : orOpt a none = a := by
  cases a <;> rfl

theorem fetchLoop_step_fail (oracle : Nat → AttemptOutcome) (ep : String)
    (i : Nat) (rest : List Nat) (le : Option String)
    (h : isSuccessOutcome (oracle i) = false) :
    (fetchLoop oracle ep (i :: rest) le).result =
      (fetchLoop oracle ep rest (orOpt (attemptErrMsg (oracle i)) le)).result ∧
    (fetchLoop oracle ep (i :: rest) le).lastError =
      (fetchLoop oracle ep rest
        (orOpt (attemptErrMsg (oracle i)) le)).lastError := by
  cases ho : oracle i with
  | exn m => simp [fetchLoop, ho, attemptErrMsg, orOpt]
  | resp s body =>
      rw [ho] at h
      by_cases hrl : isRateLimitStatus s
      · simp [fetchLoop, ho, hrl, attemptErrMsg, orOpt]
      · by_cases hrs : raisesForStatus s
        · simp [fetchLoop, ho, hrl, hrs, attemptErrMsg, orOpt]
        · cases body with
          | some d =>
              simp [isSuccessOutcome, hrl, hrs] at h
          | none =>
              simp [fetchLoop, ho, hrl, hrs, attemptErrMsg, orOpt]

theorem fetchLoop_success (oracle : Nat → AttemptOutcome) (ep : String)
    (i : Nat) (rest : List Nat) (le : Option String) (s : Nat) (d : Json)
    (ho : oracle i = .resp s (some d)) (hrl : isRateLimitStatus s = false)
    (hrs : raisesForStatus s = false) :
    fetchLoop oracle ep (i :: rest) le = ⟨some d, le, [Eff.httpCall ep]⟩ := by
  simp [fetchLoop, ho, hrl, hrs]

theorem fetchLoop_all_fail (oracle : Nat → AttemptOutcome) (ep : String)
    (h : ∀ i, i < 3 → isSuccessOutcome (oracle i) = false) :
    (fetchLoop oracle ep [0, 1, 2] none).result = none ∧
    (fetchLoop oracle ep [0, 1, 2] none).lastError = lastErrorOf oracle := by
  have h0 := fetchLoop_step_fail oracle ep 0 [1, 2] none (h 0 (by norm_num))
  have h1 := fetchLoop_step_fail oracle ep 1 [2]
    (orOpt (attemptErrMsg (oracle 0)) none) (h 1 (by norm_num))
  have h2 := fetchLoop_step_fail oracle ep 2 []
    (orOpt (attemptErrMsg (oracle 1))
      (orOpt (attemptErrMsg (oracle 0)) none)) (h 2 (by norm_num))
  rw [h0.1, h1.1, h2.1, h0.2, h1.2, h2.2]
  rw [orOpt_none_right] at h2 ⊢
  exact ⟨rfl, rfl⟩

/-- C1: if all 3 upstream attempts of `fetch_api` fail, then any existing
entry under the derived key (fresh or stale) has its value returned, and
otherwise the structured payload `{"status": "error", "message":
str(last_error)}` is returned; `fetch_api` is a total function, so no
exception ever propagates to the caller. -/
theorem C1_exhausted_retries_degrade (oracle : Nat → AttemptOutcome)
    (cache : Cache) (now : ℚ) (endpoint cache_type : String)
    (hfail : ∀ i, i < 3 → isSuccessOutcome (oracle i) = false) :
    (∀ e, lookupDict cache (cacheKey cache_type endpoint) = some e →
      (fetch_api oracle cache now endpoint cache_type).1 = e.data) ∧
    (lookupDict cache (cacheKey cache_type endpoint) = none →
      (fetch_api oracle cache now endpoint cache_type).1 =
        errorPayload (pyStr (lastErrorOf oracle))) := by
  obtain ⟨hres, herr⟩ := fetchLoop_all_fail oracle endpoint hfail
  cases hget : get_from_cache cache (cacheKey cache_type endpoint) now with
  | some d =>
      obtain ⟨e', hl', hd', _⟩ :=
        get_from_cache_some _ _ _ _ hget
      constructor
      · intro e hle
        rw [hl'] at hle
        cases hle
        simp [fetch_api, hget, hd']
      · intro hnone
        rw [hl'] at hnone
        exact absurd hnone (by simp)
  | none =>
      constructor
      · intro e hle
        simp [fetch_api, hget, hres, hle]
      · intro hnone
        simp [fetch_api, hget, hres, herr, hnone]

/-- Witness for C1: a cold key whose three attempts all raise returns the
error payload carrying the last exception text. -/
theorem C1_witness :
    (fetch_api (fun _ => .exn "boom") [] 0 "/anime/home" "home").1 =
      errorPayload "boom" := by
  have h := (C1_exhausted_retries_degrade (fun _ => .exn "boom") [] 0
    "/anime/home" "home" (fun i _ => rfl)).2 rfl
  simpa [lastErrorOf, attemptErrMsg, orOpt, pyStr] using h

/-! Helper lemmas for rate-limited outcomes. -/

theorem rateLimited_not_success (o : AttemptOutcome)
    (h : isRateLimitedOutcome o = true) : isSuccessOutcome o = false := by
  cases o with
  | exn m => rfl
  | resp s body =>
      simp only [isRateLimitedOutcome] at h
      simp [isSuccessOutcome, h]

theorem rateLimited_errMsg_none (o : AttemptOutcome)
    (h : isRateLimitedOutcome o = true) : attemptErrMsg o = none := by
  cases o with
  | exn m => simp [isRateLimitedOutcome] at h
  | resp s body =>
      simp only [isRateLimitedOutcome] at h
      simp [attemptErrMsg, h]

/-- C10: if all three attempts of `fetch_api` take the 403/429 branch (so
no exception is ever recorded) and no entry exists under the cache key,
the returned payload is `{"status": "error", "message": "None"}` — the
message is the string form of Python `None`, not a description of the
rate-limit rejection. -/
theorem C10_all_rate_limited_message_none (oracle : Nat → AttemptOutcome)
    (cache : Cache) (now : ℚ) (endpoint cache_type : String)
    (hrl : ∀ i, i < 3 → isRateLimitedOutcome (oracle i) = true)
    (hnone : lookupDict cache (cacheKey cache_type endpoint) = none) :
    (fetch_api oracle cache now endpoint cache_type).1 =
      Json.obj [("status", Json.str "error"),
        ("message", Json.str "None")] := by
  have hfail : ∀ i, i < 3 → isSuccessOutcome (oracle i) = false :=
    fun i hi => rateLimited_not_success _ (hrl i hi)
  obtain ⟨hres, herr⟩ := fetchLoop_all_fail oracle endpoint hfail
  have hle : lastErrorOf oracle = none := by
    simp [lastErrorOf, rateLimited_errMsg_none _ (hrl 0 (by norm_num)),
      rateLimited_errMsg_none _ (hrl 1 (by norm_num)),
      rateLimited_errMsg_none _ (hrl 2 (by norm_num)), orOpt]
  have hget := get_from_cache_of_lookup_none cache
    (cacheKey cache_type endpoint) now hnone
  simp [fetch_api, hget, hres, herr, hnone, hle, errorPayload, pyStr]

/-- Witness for C10: three straight 429 responses on a cold key. -/
theorem C10_witness :
    (fetch_api (fun _ => .resp 429 none) [] 0 "/anime/home" "home").1 =
      Json.obj [("status", Json.str "error"),
        ("message", Json.str "None")] :=
  C10_all_rate_limited_message_none (fun _ => .resp 429 none) [] 0
    "/anime/home" "home" (fun _ _ => rfl) rfl

/-! Backoff-policy refinement. -/

theorem sleepTimes_append (a b : List Eff) :
    sleepTimes (a ++ b) = sleepTimes a ++ sleepTimes b := by
  simp [sleepTimes]

theorem sleepTimes_cons_http (ep : String) (t : List Eff) :
    sleepTimes (Eff.httpCall ep :: t) = sleepTimes t := rfl

theorem sleepTimes_cons_sleep (q : ℚ) (t : List Eff) :
    sleepTimes (Eff.sleep q :: t) = q :: sleepTimes t := rfl

theorem sleepTimes_fetchLoop (oracle : Nat → AttemptOutcome) (ep : String) :
    ∀ (l : List Nat) (le : Option String),
      sleepTimes (fetchLoop oracle ep l le).effects = claimedBackoff oracle l := by
  intro l
  induction l with
  | nil => intro le; rfl
  | cons i rest ih =>
      intro le
      cases ho : oracle i with
      | exn m =>
          by_cases hi : i < 2 <;>
            simp [fetchLoop, ho, claimedBackoff, isRateLimitedOutcome,
              isSuccessOutcome, hi, sleepTimes_cons_http, sleepTimes_append,
              sleepTimes_cons_sleep, ih]
      | resp s body =>
          by_cases hrl : isRateLimitStatus s
          · simp [fetchLoop, ho, claimedBackoff, isRateLimitedOutcome,
              hrl, sleepTimes_cons_http, sleepTimes_cons_sleep, ih]
          · by_cases hrs : raisesForStatus s
            · by_cases hi : i < 2 <;>
                simp [fetchLoop, ho, claimedBackoff, isRateLimitedOutcome,
                  isSuccessOutcome, hrl, hrs, hi, sleepTimes_cons_http,
                  sleepTimes_append, sleepTimes_cons_sleep, ih]
            · cases body with
              | some d =>
                  simp [fetchLoop, ho, claimedBackoff, isRateLimitedOutcome,
                    isSuccessOutcome, hrl, hrs, sleepTimes_cons_http,
                    sleepTimes]
              | none =>
                  by_cases hi : i < 2 <;>
                    simp [fetchLoop, ho, claimedBackoff, isRateLimitedOutcome,
                      isSuccessOutcome, hrl, hrs, hi, sleepTimes_cons_http,
                      sleepTimes_append, sleepTimes_cons_sleep, ih]

/-- C2 counterexample: a response with status 300 — outside 2xx and not
403 or 429 — is not treated as a transport/parsing failure by the retry
loop: `raise_for_status` only raises on 4xx/5xx, so `fetch_api` returns
the parsed body as a success with no 3-second sleep, contrary to the
claim that any non-2xx (non-403/429) status incurs a flat 3-second sleep
followed by a retry. -/
theorem C2_counterexample :
    (¬(200 ≤ 300 ∧ 300 ≤ 299)) ∧ 300 ≠ 403 ∧ 300 ≠ 429 ∧
    (fetch_api (fun _ => .resp 300 (some (Json.str "body"))) [] 0
      "/anime/home" "home").1 = Json.str "body" ∧
    sleepTimes (fetch_api (fun _ => .resp 300 (some (Json.str "body"))) [] 0
      "/anime/home" "home").2.2 = [] := by
  refine ⟨by norm_num, by norm_num, by norm_num, ?_, ?_⟩ <;>
    simp [fetch_api, get_from_cache, lookupDict, cacheKey, fetchLoop,
      isRateLimitStatus, raisesForStatus, sleepTimes, save_to_cache]

/-- C2 (amended): in `fetch_api`'s retry loop, for every attempt index, a
403/429 response causes a sleep of `(i+1)*6` seconds (6, 12, 18) after
which the loop continues; an attempt that raises — a transport error, a
4xx/5xx status other than 403/429 (the statuses `raise_for_status` flags,
rather than every non-2xx status), or a JSON parse failure — causes a
flat 3-second sleep before retrying except on the final attempt; a
success stops the loop. In particular, 429 on attempts 1 and 2 followed
by success on attempt 3 returns the successful payload after exactly the
two sleeps 6 s and 12 s. -/
theorem C2_amended_backoff_policy :
    (∀ (oracle : Nat → AttemptOutcome) (ep : String) (l : List Nat)
      (le : Option String),
      sleepTimes (fetchLoop oracle ep l le).effects =
        claimedBackoff oracle l) ∧
    ((fetch_api
        (fun i => if i < 2 then .resp 429 none
          else .resp 200 (some (Json.str "payload"))) [] 0
        "/anime/home" "home").1 = Json.str "payload" ∧
     sleepTimes (fetch_api
        (fun i => if i < 2 then .resp 429 none
          else .resp 200 (some (Json.str "payload"))) [] 0
        "/anime/home" "home").2.2 = [6, 12]) := by
  refine ⟨sleepTimes_fetchLoop, ?_, ?_⟩
  · norm_num [fetch_api, get_from_cache, lookupDict, cacheKey, fetchLoop,
      isRateLimitStatus, raisesForStatus, save_to_cache]
  · norm_num [fetch_api, get_from_cache, lookupDict, cacheKey, fetchLoop,
      isRateLimitStatus, raisesForStatus, sleepTimes, save_to_cache]
    rfl

/-- C3: a fresh cache entry short-circuits `fetch_api` — the cached value
is returned with no upstream call, no rate-limiter interaction and no
cache mutation — and consequently two calls within the TTL window, the
first of which succeeds upstream on its first attempt, issue exactly one
upstream HTTP call in total. -/
theorem C3_fresh_hit_no_network :
    (∀ (oracle : Nat → AttemptOutcome) (cache : Cache) (now : ℚ)
      (ep ct : String) (d : Json),
      get_from_cache cache (cacheKey ct ep) now = some d →
      fetch_api oracle cache now ep ct = (d, cache, [])) ∧
    (∀ (oracle oracle2 : Nat → AttemptOutcome) (cache : Cache)
      (now δ : ℚ) (ep ct : String) (d : Json),
      lookupDict cache (cacheKey ct ep) = none →
      oracle 0 = .resp 200 (some d) →
      0 ≤ δ → δ < cacheDurationOf ct →
      (fetch_api oracle cache now ep ct).1 = d ∧
      (fetch_api oracle2 (fetch_api oracle cache now ep ct).2.1 (now + δ)
        ep ct).1 = d ∧
      httpCallCount (fetch_api oracle cache now ep ct).2.2 +
        httpCallCount (fetch_api oracle2
          (fetch_api oracle cache now ep ct).2.1 (now + δ) ep ct).2.2
        = 1) := by
  constructor
  · intro oracle cache now ep ct d hget
    simp [fetch_api, hget]
  · intro oracle oracle2 cache now δ ep ct d hnone ho h0 hδ
    have hget := get_from_cache_of_lookup_none cache (cacheKey ct ep) now hnone
    have hloop := fetchLoop_success oracle ep 0 [1, 2] none 200 d ho rfl rfl
    have hfirst : fetch_api oracle cache now ep ct =
        (d, save_to_cache cache (cacheKey ct ep) d ct now,
          [Eff.rateLimitWait, Eff.httpCall ep]) := by
      simp [fetch_api, hget, hloop]
    have hget2 : get_from_cache
        (save_to_cache cache (cacheKey ct ep) d ct now)
        (cacheKey ct ep) (now + δ) = some d := by
      simp only [save_to_cache, get_from_cache,
        lookupDict_setDict_self]
      rw [if_pos]
      simpa using hδ
    have hsecond : fetch_api oracle2
        (save_to_cache cache (cacheKey ct ep) d ct now) (now + δ) ep ct =
        (d, save_to_cache cache (cacheKey ct ep) d ct now, []) := by
      simp [fetch_api, hget2]
    rw [hfirst]
    simp [hsecond, httpCallCount]

/-- Witness for C3: a cold `home` fetch at instant 0 followed by a repeat
at instant 1 returns the payload both times over a single upstream call. -/
theorem C3_witness :
    (fetch_api (fun _ => .resp 200 (some Json.null)) [] 0
      "/anime/home" "home").1 = Json.null ∧
    (fetch_api (fun _ => .resp 500 none)
      (fetch_api (fun _ => .resp 200 (some Json.null)) [] 0
        "/anime/home" "home").2.1 1 "/anime/home" "home").1 = Json.null ∧
    httpCallCount (fetch_api (fun _ => .resp 200 (some Json.null)) [] 0
        "/anime/home" "home").2.2 +
      httpCallCount (fetch_api (fun _ => .resp 500 none)
        (fetch_api (fun _ => .resp 200 (some Json.null)) [] 0
          "/anime/home" "home").2.1 1 "/anime/home" "home").2.2 = 1 := by
  have h := C3_fresh_hit_no_network.2 (fun _ => .resp 200 (some Json.null))
    (fun _ => .resp 500 none) [] 0 1 "/anime/home" "home" Json.null
    rfl rfl (by norm_num)
    (by norm_num [cacheDurationOf, CACHE_DURATION, lookupDict])
  simpa using h

/-! Helper lemmas about the image proxy. -/

theorem proxy_image_miss (cache : ImageCache) (url : String) (now : ℚ)
    (outcome : ImgOutcome) (h : is_image_cached cache url now = false) :
    proxy_image cache (some url) now outcome =
      proxyFetchMiss cache url now outcome := by
  cases hl : lookupDict cache url with
  | none => simp [proxy_image, hl]
  | some e =>
      simp only [is_image_cached, hl, decide_eq_false_iff_not] at h
      simp [proxy_image, hl, h]

theorem proxyFetchMiss_fetchCount (cache : ImageCache) (url : String)
    (now : ℚ) (outcome : ImgOutcome) :
    (proxyFetchMiss cache url now outcome).fetchCount ≤ 1 := by
  cases outcome with
  | timeout => exact le_refl 1
  | reqError m => exact le_refl 1
  | internalError m => exact le_refl 1
  | ok s c ct =>
      by_cases hrs : raisesForStatus s <;>
        simp [proxyFetchMiss, hrs, cache_image]

theorem is_image_cached_of_lookup_none (cache : ImageCache) (url : String)
    (now : ℚ) (h : lookupDict cache url = none) :
    is_image_cached cache url now = false := by
  simp [is_image_cached, h]

/-- C6: a fresh cached image is served with `X-Cache-Status: HIT` and its
`hits` counter incremented; a miss that fetches successfully is served
with `MISS` and stored with `hits = 0`, leaving every other entry
untouched; hence the first call on a cold URL yields MISS with a stored
hit count of 0 and a second call within 6 hours yields HIT with the hit
count at 1. -/
theorem C6_image_hit_counting :
    (∀ (cache : ImageCache) (url : String) (now : ℚ) (e : ImageEntry)
      (outcome : ImgOutcome),
      lookupDict cache url = some e →
      now - e.cachedAt < IMAGE_CACHE_DURATION →
      (proxy_image cache (some url) now outcome).response =
        .image e.content e.mimetype "HIT" ∧
      lookupDict (proxy_image cache (some url) now outcome).cache url =
        some ⟨e.content, e.mimetype, e.cachedAt, e.hits + 1⟩) ∧
    (∀ (cache : ImageCache) (url : String) (now : ℚ) (content : List Nat)
      (ctOpt : Option String) (s : Nat),
      is_image_cached cache url now = false →
      raisesForStatus s = false →
      (proxy_image cache (some url) now (.ok s content ctOpt)).response =
        .image content (ctOpt.getD "image/jpeg") "MISS" ∧
      lookupDict
          (proxy_image cache (some url) now (.ok s content ctOpt)).cache
          url = some ⟨content, ctOpt.getD "image/jpeg", now, 0⟩ ∧
      (∀ u', u' ≠ url →
        lookupDict
            (proxy_image cache (some url) now (.ok s content ctOpt)).cache
            u' = lookupDict cache u')) ∧
    (∀ (cache : ImageCache) (url : String) (now now2 : ℚ)
      (content : List Nat) (ctOpt : Option String) (outcome2 : ImgOutcome),
      lookupDict cache url = none →
      now2 - now < IMAGE_CACHE_DURATION →
      cacheStatusOf
          (proxy_image cache (some url) now (.ok 200 content ctOpt)).response
        = some "MISS" ∧
      (lookupDict
          (proxy_image cache (some url) now (.ok 200 content ctOpt)).cache
          url).map ImageEntry.hits = some 0 ∧
      cacheStatusOf
          (proxy_image
            (proxy_image cache (some url) now (.ok 200 content ctOpt)).cache
            (some url) now2 outcome2).response = some "HIT" ∧
      (lookupDict
          (proxy_image
            (proxy_image cache (some url) now (.ok 200 content ctOpt)).cache
            (some url) now2 outcome2).cache url).map ImageEntry.hits
        = some 1) := by
  have hhit : ∀ (cache : ImageCache) (url : String) (now : ℚ)
      (e : ImageEntry) (outcome : ImgOutcome),
      lookupDict cache url = some e →
      now - e.cachedAt < IMAGE_CACHE_DURATION →
      proxy_image cache (some url) now outcome =
        ⟨.image e.content e.mimetype "HIT",
          setDict cache url ⟨e.content, e.mimetype, e.cachedAt, e.hits + 1⟩,
          0⟩ := by
    intro cache url now e outcome hl hf
    simp [proxy_image, hl, hf]
  have hmiss : ∀ (cache : ImageCache) (url : String) (now : ℚ)
      (content : List Nat) (ctOpt : Option String) (s : Nat),
      is_image_cached cache url now = false →
      raisesForStatus s = false →
      proxy_image cache (some url) now (.ok s content ctOpt) =
        ⟨.image content (ctOpt.getD "image/jpeg") "MISS",
          setDict cache url ⟨content, ctOpt.getD "image/jpeg", now, 0⟩,
          1⟩ := by
    intro cache url now content ctOpt s hnc hrs
    rw [proxy_image_miss cache url now _ hnc]
    simp [proxyFetchMiss, hrs, cache_image]
  refine ⟨?_, ?_, ?_⟩
  · intro cache url now e outcome hl hf
    rw [hhit cache url now e outcome hl hf]
    exact ⟨rfl, lookupDict_setDict_self _ _ _⟩
  · intro cache url now content ctOpt s hnc hrs
    rw [hmiss cache url now content ctOpt s hnc hrs]
    exact ⟨rfl, lookupDict_setDict_self _ _ _,
      fun u' hu' => lookupDict_setDict_ne _ _ _ _ hu'⟩
  · intro cache url now now2 content ctOpt outcome2 hl hf2
    have h1 := hmiss cache url now content ctOpt 200
      (is_image_cached_of_lookup_none cache url now hl) rfl
    rw [h1]
    have hl2 : lookupDict
        (setDict cache url ⟨content, ctOpt.getD "image/jpeg", now, 0⟩) url =
        some ⟨content, ctOpt.getD "image/jpeg", now, 0⟩ :=
      lookupDict_setDict_self _ _ _
    have h2 := hhit _ url now2 _ outcome2 hl2 (by simpa using hf2)
    simp only [h2]
    exact ⟨rfl, by simp [lookupDict_setDict_self], rfl,
      by simp [lookupDict_setDict_self]⟩

/-- Witness for C6: cold fetch of URL `u` at instant 0 then a repeat at
instant 1 with a failing upstream: MISS with stored hits 0, then HIT with
hits 1. -/
theorem C6_witness :
    cacheStatusOf
        (proxy_image [] (some "u") 0 (.ok 200 [7] none)).response
      = some "MISS" ∧
    (lookupDict (proxy_image [] (some "u") 0
        (.ok 200 [7] none)).cache "u").map ImageEntry.hits = some 0 ∧
    cacheStatusOf
        (proxy_image (proxy_image [] (some "u") 0
          (.ok 200 [7] none)).cache (some "u") 1 .timeout).response
      = some "HIT" ∧
    (lookupDict (proxy_image (proxy_image [] (some "u") 0
        (.ok 200 [7] none)).cache (some "u") 1 .timeout).cache "u").map
      ImageEntry.hits = some 1 :=
  C6_image_hit_counting.2.2 [] "u" 0 1 [7] none .timeout rfl
    (by norm_num [IMAGE_CACHE_DURATION])

/-- C7: the image proxy maps failures to distinct caller-visible HTTP
statuses — 400 when the `url` parameter is missing, 504 on upstream
timeout, 500 on any other fetch error (including a 4xx/5xx upstream
status) or internal error — performs at most one upstream fetch per call
(no retry, no stale fallback), and a failed fetch stores nothing in the
image cache. -/
theorem C7_image_proxy_error_statuses :
    (∀ (cache : ImageCache) (now : ℚ) (outcome : ImgOutcome),
      proxy_image cache none now outcome =
        ⟨.jsonError "URL parameter required" 400, cache, 0⟩) ∧
    (∀ (cache : ImageCache) (url : String) (now : ℚ),
      is_image_cached cache url now = false →
      proxyStatus (proxy_image cache (some url) now .timeout).response = 504
      ∧ (proxy_image cache (some url) now .timeout).cache = cache) ∧
    (∀ (cache : ImageCache) (url : String) (now : ℚ) (m : String),
      is_image_cached cache url now = false →
      proxyStatus
          (proxy_image cache (some url) now (.reqError m)).response = 500 ∧
      (proxy_image cache (some url) now (.reqError m)).cache = cache) ∧
    (∀ (cache : ImageCache) (url : String) (now : ℚ) (m : String),
      is_image_cached cache url now = false →
      proxyStatus
          (proxy_image cache (some url) now (.internalError m)).response
        = 500 ∧
      (proxy_image cache (some url) now (.internalError m)).cache
        = cache) ∧
    (∀ (cache : ImageCache) (url : String) (now : ℚ) (s : Nat)
      (content : List Nat) (ctOpt : Option String),
      is_image_cached cache url now = false →
      raisesForStatus s = true →
      proxyStatus
          (proxy_image cache (some url) now (.ok s content ctOpt)).response
        = 500 ∧
      (proxy_image cache (some url) now (.ok s content ctOpt)).cache
        = cache) ∧
    (∀ (cache : ImageCache) (urlParam : Option String) (now : ℚ)
      (outcome : ImgOutcome),
      (proxy_image cache urlParam now outcome).fetchCount ≤ 1) := by
  refine ⟨fun cache now outcome => rfl, ?_, ?_, ?_, ?_, ?_⟩
  · intro cache url now h
    rw [proxy_image_miss cache url now _ h]
    exact ⟨rfl, rfl⟩
  · intro cache url now m h
    rw [proxy_image_miss cache url now _ h]
    exact ⟨rfl, rfl⟩
  · intro cache url now m h
    rw [proxy_image_miss cache url now _ h]
    exact ⟨rfl, rfl⟩
  · intro cache url now s content ctOpt h hrs
    rw [proxy_image_miss cache url now _ h]
    refine ⟨?_, ?_⟩ <;> simp [proxyFetchMiss, hrs, proxyStatus]
  · intro cache urlParam now outcome
    cases urlParam with
    | none => exact Nat.zero_le 1
    | some url =>
        by_cases hc : is_image_cached cache url now
        · cases hl : lookupDict cache url with
          | none => simp [is_image_cached, hl] at hc
          | some e =>
              simp only [is_image_cached, hl, decide_eq_true_eq] at hc
              simp [proxy_image, hl, hc]
        · rw [proxy_image_miss cache url now outcome
            (Bool.not_eq_true _ ▸ eq_false_of_ne_true hc)]
          exact proxyFetchMiss_fetchCount cache url now outcome

/-- Witness for C7: a timeout on a cold URL yields HTTP 504 and leaves the
empty cache empty. -/
theorem C7_witness :
    proxyStatus (proxy_image [] (some "u") 0 .timeout).response = 504 ∧
    (proxy_image [] (some "u") 0 .timeout).cache = [] :=
  C7_image_proxy_error_statuses.2.1 [] "u" 0 rfl

/-! Image-cache statistics. -/

/-- C9 counterexample: for a cache holding one entry whose content is a
single byte, the stats response's size field is `0`, not the byte total
`1` — `image_cache_stats` reports `round(bytes/1048576, 2)` megabytes,
so the claim that it returns the total size in bytes is false. -/
theorem C9_counterexample :
    (image_cache_stats [("u", ⟨[7], "image/jpeg", 0, 0⟩)]).totalCachedImages
      = 1 ∧
    imageCacheTotalSize [("u", ⟨[7], "image/jpeg", 0, 0⟩)] = 1 ∧
    (image_cache_stats [("u", ⟨[7], "image/jpeg", 0, 0⟩)]).totalSizeMb = 0 ∧
    (image_cache_stats [("u", ⟨[7], "image/jpeg", 0, 0⟩)]).totalSizeMb ≠
      (imageCacheTotalSize [("u", ⟨[7], "image/jpeg", 0, 0⟩)] : ℚ) := by
  have hsize :
      imageCacheTotalSize [("u", (⟨[7], "image/jpeg", 0, 0⟩ : ImageEntry))]
        = 1 := rfl
  have hmb :
      (image_cache_stats
        [("u", (⟨[7], "image/jpeg", 0, 0⟩ : ImageEntry))]).totalSizeMb
        = 0 := by
    simp only [image_cache_stats, hsize, round2]
    rw [round_eq]
    norm_num
  refine ⟨rfl, hsize, hmb, ?_⟩
  rw [hmb, hsize]
  norm_num

/-- C9 (amended): `image_cache_stats` aggregates over all stored entries
regardless of freshness and returns the entry count, the total hit count,
and the total stored-content size expressed in megabytes rounded to two
decimals (`round(bytes/1048576, 2)`), not the raw byte count; inserting a
fresh-keyed entry of any age adds its count, hits and bytes to the
aggregates. -/
theorem C9_amended_stats (cache : ImageCache) :
    (image_cache_stats cache).totalCachedImages = cache.length ∧
    (image_cache_stats cache).totalHits =
      (cache.map (fun p => p.2.hits)).sum ∧
    (image_cache_stats cache).totalSizeMb =
      round2 ((imageCacheTotalSize cache : ℚ) / 1048576) ∧
    (∀ (u : String) (e : ImageEntry), lookupDict cache u = none →
      (image_cache_stats (setDict cache u e)).totalCachedImages =
        (image_cache_stats cache).totalCachedImages + 1 ∧
      (image_cache_stats (setDict cache u e)).totalHits =
        (image_cache_stats cache).totalHits + e.hits ∧
      (image_cache_stats (setDict cache u e)).totalSizeMb =
        round2 ((((imageCacheTotalSize cache + e.content.length : ℕ)) : ℚ)
          / 1048576)) := by
  refine ⟨rfl, rfl, by norm_num [image_cache_stats], ?_⟩
  intro u e hnone
  have hset : setDict cache u e = (u, e) :: cache := by
    simp [setDict, removeKey_eq_self_of_lookup_none cache u hnone]
  refine ⟨?_, ?_, ?_⟩
  · simp [image_cache_stats, hset]
  · simp [image_cache_stats, hset, imageCacheTotalHits, Nat.add_comm]
  · simp only [image_cache_stats, hset, imageCacheTotalSize, List.map_cons,
      List.sum_cons]
    norm_num [Nat.add_comm]

/-- Witness for C9 (amended): inserting a one-byte entry with an ancient
`cachedAt` of -100000 into the empty cache bumps all three aggregates. -/
theorem C9_witness :
    (image_cache_stats (setDict [] "u"
        ⟨[7], "image/jpeg", -100000, 3⟩)).totalCachedImages =
      (image_cache_stats []).totalCachedImages + 1 ∧
    (image_cache_stats (setDict [] "u"
        ⟨[7], "image/jpeg", -100000, 3⟩)).totalHits =
      (image_cache_stats []).totalHits + 3 ∧
    (image_cache_stats (setDict [] "u"
        ⟨[7], "image/jpeg", -100000, 3⟩)).totalSizeMb =
      round2 ((((imageCacheTotalSize [] + 1 : ℕ)) : ℚ) / 1048576) :=
  (C9_amended_stats []).2.2.2 "u" ⟨[7], "image/jpeg", -100000, 3⟩ rfl

/-! Rate-limiter lemmas. -/

theorem rate_limit_wait_full_eq (times : List ℚ) (now : ℚ)
    (h : MAX_RPM ≤ (pruneWindow times now).length) :
    rate_limit_wait times now =
      (pruneWindow times now ++
        [now + max (61 - (now - (pruneWindow times now).headD 0)) 0],
       max (61 - (now - (pruneWindow times now).headD 0)) 0) := by
  simp only [rate_limit_wait]
  rw [if_pos h]

theorem rate_limit_wait_under_eq (times : List ℚ) (now : ℚ)
    (h : ¬MAX_RPM ≤ (pruneWindow times now).length) :
    rate_limit_wait times now = (pruneWindow times now ++ [now], 0) := by
  simp only [rate_limit_wait]
  rw [if_neg h]

theorem pruneWindow_zero_replicate (k : Nat) :
    pruneWindow (List.replicate k (0 : ℚ)) 0 = List.replicate k 0 := by
  cases k with
  | zero => rfl
  | succ n =>
      have hc : decide ((0 : ℚ) - 0 > 60) = false := by norm_num
      simp [pruneWindow, List.replicate_succ, List.dropWhile_cons, hc]

theorem acquireRun_zeros :
    ∀ (k j : Nat), j + k ≤ 55 →
      acquireRun (List.replicate j (0 : ℚ)) (List.replicate k 0) =
        (List.replicate (j + k) 0, List.replicate k 0) := by
  intro k
  induction k with
  | zero => intro j h; simp [acquireRun]
  | succ n ih =>
      intro j h
      have hstep : rate_limit_wait (List.replicate j (0 : ℚ)) 0 =
          (List.replicate (j + 1) 0, 0) := by
        rw [rate_limit_wait_under_eq]
        · rw [pruneWindow_zero_replicate, ← List.replicate_succ']
        · rw [pruneWindow_zero_replicate]
          simp only [List.length_replicate, MAX_RPM]
          omega
      rw [List.replicate_succ]
      simp only [acquireRun, hstep]
      rw [ih (j + 1) (by omega)]
      have hj : j + 1 + n = j + (n + 1) := by omega
      rw [hj]

theorem acquireRun_single (t : List ℚ) (now : ℚ) :
    acquireRun t [now] =
      ((rate_limit_wait t now).1, [(rate_limit_wait t now).2]) := by
  simp [acquireRun]

theorem acquireRun_append (t : List ℚ) (l1 l2 : List ℚ) :
    acquireRun t (l1 ++ l2) =
      ((acquireRun (acquireRun t l1).1 l2).1,
       (acquireRun t l1).2 ++ (acquireRun (acquireRun t l1).1 l2).2) := by
  induction l1 generalizing t with
  | nil => simp [acquireRun]
  | cons now rest ih => simp [acquireRun, ih]

theorem rate_limit_wait_56th :
    rate_limit_wait (List.replicate 55 (0 : ℚ)) 0 =
      (List.replicate 55 0 ++ [61], 61) := by
  rw [rate_limit_wait_full_eq]
  · rw [pruneWindow_zero_replicate]
    have hh : (List.replicate 55 (0 : ℚ)).headD 0 = 0 := by
      rw [List.replicate_succ]
      rfl
    rw [hh]
    norm_num
  · rw [pruneWindow_zero_replicate]
    simp [MAX_RPM]

theorem acquireRun_56_zeros :
    acquireRun [] (List.replicate 56 (0 : ℚ)) =
      (List.replicate 55 0 ++ [61], List.replicate 55 0 ++ [61]) := by
  have hsplit : List.replicate 56 (0 : ℚ) = List.replicate 55 0 ++ [0] :=
    List.replicate_succ' 55 0
  have h55 := acquireRun_zeros 55 0 (by omega)
  simp only [List.replicate_zero, Nat.zero_add] at h55
  rw [hsplit, acquireRun_append, h55]
  dsimp only
  rw [acquireRun_single, rate_limit_wait_56th]

theorem countP_pos_replicate_zero (n : Nat) :
    (List.replicate n (0 : ℚ)).countP (fun s => decide (0 < s)) = 0 := by
  induction n with
  | zero => rfl
  | succ m ih =>
      rw [List.replicate_succ]
      simp [List.countP_cons, ih, (by norm_num : ¬(0 : ℚ) < 0)]

/-- C4 counterexample: after 56 `acquire()` calls with no elapsed time the
stored `_req_times` list holds 56 timestamps — the appended post-wait
timestamp joins the 55 stale ones, which are only evicted on the *next*
call — so the sequence does exceed 55 entries and more than 55 timestamps
are retained. -/
theorem C4_counterexample :
    (acquireRun [] (List.replicate 56 (0 : ℚ))).1.length = 56 := by
  rw [acquireRun_56_zeros]
  simp

/-- C4 (amended): measured just before the append — after the prune, at
the instant a new call is admitted — the timestamp sequence never exceeds
55 entries, and 56 back-to-back `acquire()` calls delay exactly one call
(the 56th, which sleeps 61 s until the 60-second window admits it); but
immediately after an admission that waited, the stored list transiently
holds 56 timestamps (not at most 55) until the next call prunes them. -/
theorem C4_amended_rate_window :
    (∀ (times : List ℚ) (now : ℚ), RateInv times → (∀ t ∈ times, t ≤ now) →
      (pruneWindow times now).length ≤ 55 ∧
      RateInv (rate_limit_wait times now).1 ∧
      (rate_limit_wait times now).1.length ≤ 56 ∧
      ∀ t ∈ (rate_limit_wait times now).1,
        t ≤ now + (rate_limit_wait times now).2) ∧
    (acquireRun [] (List.replicate 56 (0 : ℚ))).2.countP
        (fun s => decide (0 < s)) = 1 ∧
    (acquireRun [] (List.replicate 56 (0 : ℚ))).2.getLastD 0 = 61 := by
  constructor
  · intro times now hinv hbound
    have hsubset : ∀ t ∈ pruneWindow times now, t ∈ times := fun t ht =>
      (List.dropWhile_sublist _).subset ht
    have hp : (pruneWindow times now).length ≤ 55 := by
      rcases hinv with hle | ⟨hlen, t1, ht1mem, ht1⟩
      · exact le_trans (List.dropWhile_sublist _).length_le hle
      · cases times with
        | nil => simp at hlen
        | cons t0 rest =>
            have hrest : rest.length = 55 := by simpa using hlen
            have ht1now : t1 ≤ now := hbound t1 ht1mem
            have ht0 : t0 + 61 ≤ now := by
              simp only [List.headD_cons] at ht1
              linarith
            have hc : decide (now - t0 > 60) = true := by
              simp only [decide_eq_true_eq]
              linarith
            have hdrop : pruneWindow (t0 :: rest) now =
                List.dropWhile (fun t => decide (now - t > 60)) rest := by
              simp [pruneWindow, List.dropWhile_cons, hc]
            rw [hdrop]
            calc (List.dropWhile (fun t => decide (now - t > 60)) rest).length
                ≤ rest.length := (List.dropWhile_sublist _).length_le
              _ = 55 := hrest
    refine ⟨hp, ?_⟩
    by_cases hfull : MAX_RPM ≤ (pruneWindow times now).length
    · have hlen55 : (pruneWindow times now).length = 55 :=
        le_antisymm hp hfull
      rw [rate_limit_wait_full_eq times now hfull]
      set q0 : ℚ := (pruneWindow times now).headD 0 with hq0
      set slept : ℚ := max (61 - (now - q0)) 0 with hslept
      have hs0 : 0 ≤ slept := le_max_right _ _
      have hsw : 61 - (now - q0) ≤ slept := le_max_left _ _
      have hne : pruneWindow times now ≠ [] := by
        intro h
        rw [h] at hlen55
        simp at hlen55
      have hq0mem : q0 ∈ pruneWindow times now := by
        cases hpr : pruneWindow times now with
        | nil => exact absurd hpr hne
        | cons a l =>
            rw [hq0, hpr]
            simp
      refine ⟨?_, ?_, ?_⟩
      · right
        refine ⟨by simp [hlen55], now + slept, by simp, ?_⟩
        have hhead : (pruneWindow times now ++ [now + slept]).headD 0 = q0 := by
          cases hpr : pruneWindow times now with
          | nil => exact absurd hpr hne
          | cons a l =>
              rw [hq0, hpr]
              simp
        rw [hhead]
        linarith
      · simp [hlen55]
      · intro t ht
        rcases List.mem_append.mp ht with hin | hlast
        · have := hbound t (hsubset t hin)
          linarith
        · simp only [List.mem_singleton] at hlast
          rw [hlast]
    · rw [rate_limit_wait_under_eq times now hfull]
      have hlt : (pruneWindow times now).length < 55 := by
        simp only [MAX_RPM, not_le] at hfull
        exact hfull
      refine ⟨Or.inl (by simp; omega), by simp; omega, ?_⟩
      intro t ht
      show t ≤ now + 0
      rw [add_zero]
      rcases (by simpa using ht :
          t ∈ pruneWindow times now ∨ t = now) with hin | hlast
      · exact hbound t (hsubset t hin)
      · exact le_of_eq hlast
  · rw [acquireRun_56_zeros]
    constructor
    · rw [List.countP_append, countP_pos_replicate_zero]
      norm_num
    · simp

/-- Witness for C4 (amended): the invariant step applied to the empty
timestamp list at instant 0. -/
theorem C4_witness :
    (pruneWindow [] 0).length ≤ 55 ∧
    RateInv (rate_limit_wait [] 0).1 ∧
    (rate_limit_wait [] 0).1.length ≤ 56 ∧
    ∀ t ∈ (rate_limit_wait [] 0).1, t ≤ 0 + (rate_limit_wait [] 0).2 :=
  C4_amended_rate_window.1 [] 0 (Or.inl (by simp [pruneWindow]))
    (by simp)

end DayyOtak
